import Mathlib

/-!
Verification of the pmx SGE cluster job lifecycle manager
(src/pmx/scripts/workflows/SGE_tasks/SGETunedJobTask.py and the
Task_PL_align subclass in absFE/LinP/alignment.py).

Python strings are modelled as Lean `String` (or `List Char` where we
reason about embedded occurrences); Python ints as `Int`/`Nat`; the
poll loop consumes a list of successive qstat-parsed status strings;
time is an abstract `Nat` counting one-second sleeps in the completion
wait loop, with output-target completeness a function of that time.
-/

namespace PmxSGE

/-! ## Submission Client: extended_build_qsub_command

Embeds `extended_build_qsub_command` (SGETunedJobTask.py lines 18-26).
Python strings are `List Char` here so that occurrence-of-substring
facts can be stated over list append.  The `runtime` default is `None`;
Python truthiness of a string argument is `≠ ""`, so the model takes
`Option (List Char)` with `none`/`some []` both falsy. -/

/-- The `h_rt` fragment: `""` unless `runtime` is truthy, in which case
`"-l h_rt=" + runtime` (lines 20-22). -/
def h_rt_fragment (runtime : Option (List Char)) : List Char :=
  match runtime with
  | none => []
  | some r => if r = [] then [] else "-l h_rt=".data ++ r

/-- The rendered qsub submit command (lines 23-26): the template
`echo {cmd} | qsub -o ":{outfile}" -e ":{errfile}" -V -r y {h_rt} -pe {pe} {n_cpu} -N {job_name}`
with each slot substituted by Python format. `n_cpu` is an int and is
rendered with `str`. -/
def extended_build_qsub_command (cmd job_name outfile errfile pe : List Char)
    (n_cpu : Nat) (runtime : Option (List Char)) : List Char :=
  "echo ".data ++ cmd ++ " | qsub -o \":".data ++ outfile ++ "\" -e \":".data ++
    errfile ++ "\" -V -r y ".data ++ h_rt_fragment runtime ++ " -pe ".data ++ pe ++
    " ".data ++ (Nat.repr n_cpu).data ++ " -N ".data ++ job_name

/-! ## Staging Service: _init_local working directory name

Embeds the temp-folder naming of `_init_local` (lines 150-160):
`folder_name = task_id + '-' + random_id`;
`tmp_dir = os.path.join(base_tmp_dir, folder_name)` truncated by
`tmp_dir[:max_filename_length]`. -/

/-- POSIX `os.path.join` on two components. -/
def os_path_join (a b : String) : String :=
  if b.startsWith "/" then b
  else if a = "" ∨ a.endsWith "/" then a ++ b
  else a ++ "/" ++ b

/-- Python string slice `s[:n]`. -/
def pySliceTo (s : String) (n : Nat) : String :=
  ⟨s.data.take n⟩

/-- The staging working directory path chosen by `_init_local`
(lines 153-158): join of the shared tmp base with
`task_id + '-' + random_id`, truncated to `f_namemax` characters. -/
def stagingTmpDir (base_tmp_dir task_id random_id : String)
    (max_filename_length : Nat) : String :=
  pySliceTo (os_path_join base_tmp_dir (task_id ++ "-" ++ random_id))
    max_filename_length

/-! ## Status Poller / State Machine: _track_job

Embeds `_track_job` (lines 222-251).  Each loop iteration sleeps, runs
qstat and parses one raw status string; we model a run by the list of
successive parsed statuses.  `_fetch_task_failures()` reads the
captured error file, modelled as the fixed list `errors` for the run. -/

/-- Result of the polling loop. `pending` is the model artifact for a
status list that was exhausted with the loop still running (the real
loop would keep polling). `unknownState` models the raised exception
`job status isn't one of ['r', 'qw', 'E*', 't', 'u']`. -/
inductive TrackResult where
  | failed (errors : List String)
  | provisionallyDone
  | unknownState (status : String)
  | pending
  deriving DecidableEq, Repr

/-- The `while True` polling loop of `_track_job`: statuses `r`, `qw`,
`t` log and continue; a status containing the char `E` fetches the
captured errors, logs them and breaks; status `u` fetches the captured
errors and breaks as provisionally-done when none were captured, else
as failed; anything else raises. -/
def trackJob (errors : List String) : List String → TrackResult
  | [] => .pending
  | s :: rest =>
    if s = "r" then trackJob errors rest
    else if s = "qw" then trackJob errors rest
    else if s = "t" then trackJob errors rest
    else if s.data.contains 'E' then .failed errors
    else if s = "u" then
      (if errors = [] then .provisionallyDone else .failed errors)
    else .unknownState s

/-! ## Completion Verifier: the wait loop in run (lines 128-147)

`waitbuffer = end_wait_buffer; while waitbuffer>0 and not complete():
sleep(1); waitbuffer -= 1`, then `if not complete(): raise`.
`complete : Nat → Bool` gives output-target completeness after a given
number of one-second sleeps. -/

/-- The wait loop; returns the number of seconds slept when the loop
exits (second argument is seconds slept so far, first is the remaining
`waitbuffer`). -/
def waitLoop (complete : Nat → Bool) : Nat → Nat → Nat
  | 0, t => t
  | wb + 1, t => if complete t then t else waitLoop complete wb (t + 1)

/-- The failure message built at lines 143-146:
`"Task " + class name + str(dict of significant params) + " Failed due to being incomplete."`.
Python dict repr is modelled keeping its shape: brace-delimited,
comma-separated, quoted key then `: ` then value. -/
def pyQuote : Char := '\x27'

/-- One `'key': value` entry of the dict repr. -/
def renderPair (kv : List Char × List Char) : List Char :=
  pyQuote :: kv.1 ++ (pyQuote :: ": ".data) ++ kv.2

/-- Comma-space separated concatenation. -/
def joinCommaSep : List (List Char) → List Char
  | [] => []
  | [x] => x
  | x :: y :: xs => x ++ ", ".data ++ joinCommaSep (y :: xs)

/-- Model of `str(dict(pars))` for the significant-parameter pairs. -/
def renderDict (pars : List (List Char × List Char)) : List Char :=
  "\x7b".data ++ joinCommaSep (pars.map renderPair) ++ "\x7d".data

/-- The full `errmsg` of lines 143-146. -/
def incompleteMsg (className : List Char)
    (pars : List (List Char × List Char)) : List Char :=
  "Task ".data ++ className ++ renderDict pars ++
    " Failed due to being incomplete.".data

/-- The completion-verifier phase of `run` (lines 137-147): run the
wait loop, then return the raised message if the task is still not
complete, `none` if no exception is raised. -/
def runVerifier (complete : Nat → Bool) (end_wait_buffer : Nat)
    (className : List Char) (pars : List (List Char × List Char)) :
    Option (List Char) :=
  if complete (waitLoop complete end_wait_buffer 0) then none
  else some (incompleteMsg className pars)

/-- Outcome of `run` as seen by the orchestrator. -/
inductive RunOutcome where
  | completed
  | incompleteError (msg : List Char)
  | unknownStateError (status : String)
  | stillPolling
  deriving DecidableEq, Repr

/-- `run` (lines 128-147) after submission: `super().run()` executes
`_run_job`, which runs `_track_job` and returns normally when the loop
breaks (both on failure and on provisional done, lines 237-247); the
unknown-status exception propagates out before the wait loop; then the
wait loop and the final completeness check run. -/
def runTask (errors : List String) (statuses : List String)
    (complete : Nat → Bool) (end_wait_buffer : Nat)
    (className : List Char) (pars : List (List Char × List Char)) :
    RunOutcome :=
  match trackJob errors statuses with
  | .unknownState s => .unknownStateError s
  | .pending => .stillPolling
  | .failed _ =>
    match runVerifier complete end_wait_buffer className pars with
    | none => .completed
    | some m => .incompleteError m
  | .provisionallyDone =>
    match runVerifier complete end_wait_buffer className pars with
    | none => .completed
    | some m => .incompleteError m

/-! ## Retry/Disable Policy (lines 101-126)

`_disable_window_seconds` (default `3600*24*7`) and `_retry_count`
(default `0`) are per-task luigi parameters; the `retry_count` and
`disable_window_seconds` properties return them unchanged. -/

/-- The two retry-policy parameters of `SGETunedJobTask`, with the
source defaults. -/
structure RetryPolicyParams where
  _disable_window_seconds : Int := 3600 * 24 * 7
  _retry_count : Int := 0
  deriving DecidableEq, Repr

/-- The `retry_count` property (lines 112-118). -/
def retry_count (t : RetryPolicyParams) : Int := t._retry_count

/-- The `disable_window_seconds` property (lines 120-126). -/
def disable_window_seconds (t : RetryPolicyParams) : Int :=
  t._disable_window_seconds

/-! ## Temp-dir cleanup (lines 48-52 and 217-220)

`dont_remove_tmp_dir` defaults to `True`; `_run_job` removes the temp
directory only when `tmp_dir` is truthy (a nonempty string), exists on
disk, and `not dont_remove_tmp_dir`. -/

/-- Source default of the `dont_remove_tmp_dir` parameter (line 51). -/
def dont_remove_tmp_dir_default : Bool := true

/-- The cleanup guard of `_run_job` line 218:
`self.tmp_dir and os.path.exists(self.tmp_dir) and not self.dont_remove_tmp_dir`. -/
def removesTmpDir (tmp_dir : String) (tmp_dir_exists dont_remove : Bool) :
    Bool :=
  (tmp_dir ≠ "" : Bool) && tmp_dir_exists && !dont_remove

/-! ## Task identity (SGETunedJobTask lines 30-110, alignment.py Task_PL_align)

Parameters of `Task_PL_align` with their luigi significance flags as
declared in the source: `p`, `l`, `i`, `m`, `sTI` (plain parameters,
significant by default) and `restr_scheme` (`significant=True`) are
significant; `folder_path`, `study_settings`,
`reuse_existing_pbc_fixes`, `n_cpu`, `job_name_format`, `debug` and
every inherited `SGETunedJobTask` parameter (`run_locally`,
`no_tarball`, `shared_tmp_dir`, `dont_remove_tmp_dir`, `parallel_env`,
`poll_time`, `source_conda`, `job_name`, `runtime`, `end_wait_buffer`,
`_disable_window_seconds`, `_retry_count`) are `significant=False`. -/
structure Task_PL_align_Params where
  p : String
  l : String
  i : Int
  m : Int
  sTI : String
  restr_scheme : String
  folder_path : String
  study_settings : List (String × String)
  reuse_existing_pbc_fixes : Bool
  n_cpu : Int
  job_name_format : String
  debug : Bool
  run_locally : Bool
  no_tarball : Bool
  shared_tmp_dir : String
  dont_remove_tmp_dir : Bool
  parallel_env : String
  poll_time : Int
  source_conda : String
  job_name : String
  runtime : String
  end_wait_buffer : Int
  retry_policy : RetryPolicyParams
  deriving DecidableEq, Repr

/-- The significant parameters of a `Task_PL_align` instance, as
(name, rendered value) pairs, in declaration order. -/
def significantParams (d : Task_PL_align_Params) : List (String × String) :=
  [("p", d.p), ("l", d.l), ("i", toString d.i), ("m", toString d.m),
   ("sTI", d.sTI), ("restr_scheme", d.restr_scheme)]

/-- Modelled from the spec: luigi's `task_id_str` fingerprint routine is
not under src/ (only the significance flags that feed it are).  Per the
spec, identity is "a stable fingerprint derived from all significant
parameters (resource shape excluded)"; we model the fingerprint as the
task family name paired with the significant-parameter list. -/
def taskIdentity (d : Task_PL_align_Params) :
    String × List (String × String) :=
  ("Task_PL_align", significantParams d)

/-! ## Helper lemmas about the polling loop -/

/-- The statuses on which `_track_job` logs and keeps polling. -/
def ContStatus (s : String) : Prop := s = "r" ∨ s = "qw" ∨ s = "t"

theorem trackJob_cont_step (errors : List String) (s : String)
    (rest : List String) (h : ContStatus s) :
    trackJob errors (s :: rest) = trackJob errors rest := by
  rcases h with h | h | h <;> subst h <;> simp [trackJob]

theorem trackJob_skip_cont (errors : List String) (pre rest : List String)
    (h : ∀ s ∈ pre, ContStatus s) :
    trackJob errors (pre ++ rest) = trackJob errors rest := by
  induction pre with
  | nil => rfl
  | cons a as ih =>
    rw [List.cons_append, trackJob_cont_step errors a _ (h a (by simp)),
      ih (fun s hs => h s (by simp [hs]))]

theorem trackJob_error_head (errors : List String) (s : String)
    (rest : List String) (hE : s.data.contains 'E' = true) :
    trackJob errors (s :: rest) = .failed errors := by
  have h1 : s ≠ "r" := by rintro rfl; exact absurd hE (by decide)
  have h2 : s ≠ "qw" := by rintro rfl; exact absurd hE (by decide)
  have h3 : s ≠ "t" := by rintro rfl; exact absurd hE (by decide)
  have hE' : 'E' ∈ s.data := by simpa using hE
  simp [trackJob, h1, h2, h3, hE']

theorem trackJob_u_head (errors : List String) (rest : List String) :
    trackJob errors ("u" :: rest) =
      (if errors = [] then .provisionallyDone else .failed errors) := by
  simp [trackJob]

theorem trackJob_unknown_head (errors : List String) (s : String)
    (rest : List String) (h1 : s ≠ "r") (h2 : s ≠ "qw") (h3 : s ≠ "t")
    (hE : s.data.contains 'E' = false) (h4 : s ≠ "u") :
    trackJob errors (s :: rest) = .unknownState s := by
  have hE' : 'E' ∉ s.data := by simpa using hE
  simp [trackJob, h1, h2, h3, h4, hE']

/-! ## Helper lemmas about the completion-verifier wait loop -/

theorem waitLoop_ge (complete : Nat → Bool) (wb t : Nat) :
    t ≤ waitLoop complete wb t := by
  induction wb generalizing t with
  | zero => exact Nat.le_refl t
  | succ wb ih =>
    unfold waitLoop
    by_cases h : complete t
    · simp [h]
    · simp [h]
      exact Nat.le_trans (Nat.le_succ t) (ih (t + 1))

theorem waitLoop_le (complete : Nat → Bool) (wb t : Nat) :
    waitLoop complete wb t ≤ t + wb := by
  induction wb generalizing t with
  | zero => exact Nat.le_refl t
  | succ wb ih =>
    unfold waitLoop
    by_cases h : complete t
    · simp [h]
    · simp [h]
      calc waitLoop complete wb (t + 1) ≤ (t + 1) + wb := ih (t + 1)
        _ = t + (wb + 1) := by omega

theorem waitLoop_finds (complete : Nat → Bool) (wb t : Nat)
    (h : ∃ u, t ≤ u ∧ u ≤ t + wb ∧ complete u = true) :
    complete (waitLoop complete wb t) = true := by
  induction wb generalizing t with
  | zero =>
    obtain ⟨u, h1, h2, h3⟩ := h
    have : u = t := by omega
    subst this
    exact h3
  | succ wb ih =>
    unfold waitLoop
    by_cases hc : complete t
    · simp [hc]
    · simp [hc]
      obtain ⟨u, h1, h2, h3⟩ := h
      have hut : u ≠ t := by
        rintro rfl; exact hc h3
      exact ih (t + 1) ⟨u, by omega, by omega, h3⟩

theorem waitLoop_misses (complete : Nat → Bool) (wb t : Nat)
    (h : ∀ u, t ≤ u → u ≤ t + wb → complete u = false) :
    complete (waitLoop complete wb t) = false :=
  h _ (waitLoop_ge complete wb t) (waitLoop_le complete wb t)

/-! ## Helper lemmas about the incomplete-task message -/

theorem chunk_of_mem_joinCommaSep (xs : List (List Char)) (x : List Char)
    (hx : x ∈ xs) : x <:+: joinCommaSep xs := by
  induction xs with
  | nil => cases hx
  | cons a as ih =>
    cases as with
    | nil =>
      simp at hx
      subst hx
      exact List.infix_refl _
    | cons b bs =>
      rcases List.mem_cons.mp hx with h | h
      · subst h
        exact ⟨[], ", ".data ++ joinCommaSep (b :: bs), by
          simp [joinCommaSep]⟩
      · exact (ih h).trans ⟨a ++ ", ".data, [], by simp [joinCommaSep]⟩

theorem renderPair_in_incompleteMsg (cn : List Char)
    (ps : List (List Char × List Char)) (pr : List Char × List Char)
    (h : pr ∈ ps) : renderPair pr <:+: incompleteMsg cn ps := by
  have h1 : renderPair pr <:+: joinCommaSep (ps.map renderPair) :=
    chunk_of_mem_joinCommaSep _ _ (List.mem_map_of_mem renderPair h)
  have h2 : joinCommaSep (ps.map renderPair) <:+: renderDict ps :=
    ⟨"\x7b".data, "\x7d".data, by simp [renderDict]⟩
  have h3 : renderDict ps <:+: incompleteMsg cn ps :=
    ⟨"Task ".data ++ cn, " Failed due to being incomplete.".data, by
      simp [incompleteMsg, List.append_assoc]⟩
  exact (h1.trans h2).trans h3

/-! ## Helper lemmas about the completion verifier -/

theorem runVerifier_none_of_reached (complete : Nat → Bool) (budget : Nat)
    (cn : List Char) (ps : List (List Char × List Char))
    (h : ∃ t, t ≤ budget ∧ complete t = true) :
    runVerifier complete budget cn ps = none := by
  obtain ⟨t, h1, h2⟩ := h
  have := waitLoop_finds complete budget 0 ⟨t, Nat.zero_le t, by omega, h2⟩
  simp [runVerifier, this]

theorem runVerifier_some_of_never (complete : Nat → Bool) (budget : Nat)
    (cn : List Char) (ps : List (List Char × List Char))
    (h : ∀ t, t ≤ budget → complete t = false) :
    runVerifier complete budget cn ps = some (incompleteMsg cn ps) := by
  have := waitLoop_misses complete budget 0 (fun u _ h2 => h u (by omega))
  simp [runVerifier, this]

/-! ## Claim theorems -/

/-- C1: whenever the status query returns the record-not-found code `u`
(after any number of continue statuses), the poller stops (the result
does not depend on any later statuses) and disambiguates on the
captured error output: no captured errors gives provisionally-done,
captured errors give failed.  In particular the polling sequence
`r, r, qw, u` with no captured errors resolves the whole run to
completed (ReconciledDone) once the targets appear within the wait
budget. -/
theorem record_not_found_disambiguation :
    (∀ (pre rest errors : List String), (∀ s ∈ pre, ContStatus s) →
      trackJob errors (pre ++ "u" :: rest) =
        (if errors = [] then TrackResult.provisionallyDone
          else TrackResult.failed errors))
    ∧ (∀ (complete : Nat → Bool) (budget : Nat) (cn : List Char)
        (ps : List (List Char × List Char)),
      (∃ t, t ≤ budget ∧ complete t = true) →
      runTask [] ["r", "r", "qw", "u"] complete budget cn ps =
        RunOutcome.completed) := by
  constructor
  · intro pre rest errors h
    rw [trackJob_skip_cont errors pre _ h, trackJob_u_head]
  · intro complete budget cn ps h
    have ht : trackJob [] ["r", "r", "qw", "u"] =
        TrackResult.provisionallyDone := by decide
    simp [runTask, ht, runVerifier_none_of_reached complete budget cn ps h]

theorem record_not_found_disambiguation_witness :
    trackJob ["oops"] (["r"] ++ "u" :: ["qw"]) = TrackResult.failed ["oops"]
    ∧ trackJob [] (["r"] ++ "u" :: []) = TrackResult.provisionallyDone
    ∧ runTask [] ["r", "r", "qw", "u"] (fun _ => true) 3 "T".data [] =
        RunOutcome.completed := by
  refine ⟨?_, ?_, ?_⟩
  · have := record_not_found_disambiguation.1 ["r"] ["qw"] ["oops"]
      (by intro s hs; simp at hs; subst hs; exact Or.inl rfl)
    simpa using this
  · have := record_not_found_disambiguation.1 ["r"] [] []
      (by intro s hs; simp at hs; subst hs; exact Or.inl rfl)
    simpa using this
  · exact record_not_found_disambiguation.2 (fun _ => true) 3 "T".data []
      ⟨0, by omega, rfl⟩

/-- C2: a raw status containing the error marker `E` (reached after any
number of continue statuses) makes the poller resolve to failed
immediately, carrying the captured error output; the result is
independent of any later statuses, so no further polling happens.
Statuses `r`, `qw` and `t` just continue the loop. -/
theorem error_status_fails_immediately :
    (∀ (pre : List String) (s : String) (rest errors : List String),
      (∀ x ∈ pre, ContStatus x) → s.data.contains 'E' = true →
      trackJob errors (pre ++ s :: rest) = TrackResult.failed errors)
    ∧ (∀ (s : String) (rest errors : List String), ContStatus s →
      trackJob errors (s :: rest) = trackJob errors rest) := by
  constructor
  · intro pre s rest errors h hE
    rw [trackJob_skip_cont errors pre _ h, trackJob_error_head errors s rest hE]
  · exact fun s rest errors h => trackJob_cont_step errors s rest h

theorem error_status_fails_immediately_witness :
    trackJob ["err"] (["r", "qw"] ++ "Eqw" :: ["r", "r"]) =
      TrackResult.failed ["err"]
    ∧ trackJob [] ("t" :: ["u"]) = trackJob [] ["u"] := by
  constructor
  · exact error_status_fails_immediately.1 ["r", "qw"] "Eqw" ["r", "r"] ["err"]
      (by
        intro x hx
        simp at hx
        rcases hx with rfl | rfl
        · exact Or.inl rfl
        · exact Or.inr (Or.inl rfl))
      (by decide)
  · exact error_status_fails_immediately.2 "t" ["u"] [] (Or.inr (Or.inr rfl))

/-- C3: a raw status outside the known vocabulary (not `r`, `qw`, `t`,
not containing `E`, not `u`) makes the poller raise the fatal
unknown-state exception; the result is `unknownState s` itself —
independent of the captured errors and of any later statuses, so the
status is never reinterpreted or silently retried — and the exception
propagates so that the whole run ends as `unknownStateError`. -/
theorem unknown_status_raises :
    ∀ (pre : List String) (s : String) (rest errors : List String)
      (complete : Nat → Bool) (budget : Nat) (cn : List Char)
      (ps : List (List Char × List Char)),
      (∀ x ∈ pre, ContStatus x) →
      s ≠ "r" → s ≠ "qw" → s ≠ "t" → s.data.contains 'E' = false →
      s ≠ "u" →
      trackJob errors (pre ++ s :: rest) = TrackResult.unknownState s
      ∧ runTask errors (pre ++ s :: rest) complete budget cn ps =
          RunOutcome.unknownStateError s := by
  intro pre s rest errors complete budget cn ps h h1 h2 h3 hE h4
  have ht : trackJob errors (pre ++ s :: rest) =
      TrackResult.unknownState s := by
    rw [trackJob_skip_cont errors pre _ h,
      trackJob_unknown_head errors s rest h1 h2 h3 hE h4]
  exact ⟨ht, by simp [runTask, ht]⟩

theorem unknown_status_raises_witness :
    trackJob ["e"] (["r"] ++ "xy" :: ["r"]) = TrackResult.unknownState "xy"
    ∧ runTask ["e"] (["r"] ++ "xy" :: ["r"]) (fun _ => true) 2 "T".data [] =
        RunOutcome.unknownStateError "xy" :=
  unknown_status_raises ["r"] "xy" ["r"] ["e"] (fun _ => true) 2 "T".data []
    (by intro x hx; simp at hx; subst hx; exact Or.inl rfl)
    (by decide) (by decide) (by decide) (by decide) (by decide)

/-- C4: the completion verifier sleeps at most `end_wait_buffer` times;
if the task is still incomplete every second of the budget it raises
the incomplete-task error, whose message embeds every significant
parameter of the task; if the task becomes complete within the budget
no error is raised. -/
theorem completion_verifier_bounded_wait (complete : Nat → Bool)
    (budget : Nat) (cn : List Char) (ps : List (List Char × List Char)) :
    waitLoop complete budget 0 ≤ budget
    ∧ ((∀ t, t ≤ budget → complete t = false) →
        runVerifier complete budget cn ps = some (incompleteMsg cn ps)
        ∧ ∀ pr ∈ ps, renderPair pr <:+: incompleteMsg cn ps)
    ∧ ((∃ t, t ≤ budget ∧ complete t = true) →
        runVerifier complete budget cn ps = none) := by
  refine ⟨by simpa using waitLoop_le complete budget 0, ?_, ?_⟩
  · intro h
    exact ⟨runVerifier_some_of_never complete budget cn ps h,
      fun pr hpr => renderPair_in_incompleteMsg cn ps pr hpr⟩
  · exact runVerifier_none_of_reached complete budget cn ps

theorem completion_verifier_bounded_wait_witness :
    runVerifier (fun _ => false) 5 "T".data [("a".data, "b".data)] =
      some (incompleteMsg "T".data [("a".data, "b".data)])
    ∧ runVerifier (fun t => t == 3) 5 "T".data [("a".data, "b".data)] =
        none := by
  constructor
  · exact ((completion_verifier_bounded_wait (fun _ => false) 5 "T".data
      [("a".data, "b".data)]).2.1 (fun t _ => rfl)).1
  · exact (completion_verifier_bounded_wait (fun t => t == 3) 5 "T".data
      [("a".data, "b".data)]).2.2 ⟨3, by omega, rfl⟩

/-- C5 counterexample: the claim says that when the poller exits in the
failed state the completion verifier is skipped and the failure is
surfaced as-is.  On the code, `_track_job` merely breaks on failure
(line 239), `_run_job` returns normally, and the wait loop of `run`
still executes: with statuses `["Eqw"]` and captured errors the poll
phase is failed, yet the run outcome is `completed` when the targets
exist (the failure is swallowed) and `incompleteError` — produced by
the bounded-wait reconciliation — when they never appear. -/
theorem failed_poll_verifier_not_skipped_cex :
    trackJob ["boom"] ["Eqw"] = TrackResult.failed ["boom"]
    ∧ runTask ["boom"] ["Eqw"] (fun _ => true) 0 "T".data [] =
        RunOutcome.completed
    ∧ runTask ["boom"] ["Eqw"] (fun _ => false) 1 "T".data [] =
        RunOutcome.incompleteError (incompleteMsg "T".data []) := by
  refine ⟨by decide, by decide, by decide⟩

/-- C5 amended: if the poller exits in the failed state, the failure is
only logged; the run still performs the bounded-wait reconciliation,
and the final outcome is decided solely by the completion verifier —
completed when the targets appear, the incomplete-task error
otherwise. -/
theorem failed_poll_still_verified (errors statuses : List String)
    (complete : Nat → Bool) (budget : Nat) (cn : List Char)
    (ps : List (List Char × List Char)) (errs : List String)
    (h : trackJob errors statuses = TrackResult.failed errs) :
    runTask errors statuses complete budget cn ps =
      (match runVerifier complete budget cn ps with
        | none => RunOutcome.completed
        | some m => RunOutcome.incompleteError m) := by
  simp [runTask, h]

theorem failed_poll_still_verified_witness :
    runTask ["boom"] ["u"] (fun _ => true) 2 "T".data [] =
      (match runVerifier (fun _ => true) 2 "T".data [] with
        | none => RunOutcome.completed
        | some m => RunOutcome.incompleteError m) :=
  failed_poll_still_verified ["boom"] ["u"] (fun _ => true) 2 "T".data []
    ["boom"] (by decide)

/-- C6: the staging directory path built by `_init_local` never exceeds
the host filesystem's maximum filename length after the truncating
slice, and the truncation is deterministic: the same base directory,
task identity, random token and length bound always yield the same
truncated name. -/
theorem staging_dir_bounded_and_deterministic
    (base_tmp_dir task_id random_id : String) (max_filename_length : Nat) :
    (stagingTmpDir base_tmp_dir task_id random_id
        max_filename_length).length ≤ max_filename_length
    ∧ stagingTmpDir base_tmp_dir task_id random_id max_filename_length =
        stagingTmpDir base_tmp_dir task_id random_id max_filename_length :=
  ⟨List.length_take_le _ _, rfl⟩

/-- C9: the retry/disable policy's two read-only properties return the
task's configured parameter values unchanged, and the defaults are a
604800-second (7-day) failure-counting window with zero tolerated
failures. -/
theorem retry_policy_read_only_values :
    (∀ t : RetryPolicyParams,
      retry_count t = t._retry_count
      ∧ disable_window_seconds t = t._disable_window_seconds)
    ∧ disable_window_seconds {} = 604800
    ∧ retry_count {} = 0 :=
  ⟨fun t => ⟨rfl, rfl⟩, by decide, rfl⟩

/-- C10: `dont_remove_tmp_dir` defaults to true; with the default value
the cleanup guard of `_run_job` never fires, and the guard firing at
all forces the flag to have been set to false. -/
theorem tmp_dir_kept_by_default :
    dont_remove_tmp_dir_default = true
    ∧ (∀ (td : String) (ex : Bool),
        removesTmpDir td ex dont_remove_tmp_dir_default = false)
    ∧ (∀ (td : String) (ex d : Bool),
        removesTmpDir td ex d = true → d = false) := by
  refine ⟨rfl, ?_, ?_⟩
  · intro td ex
    simp [removesTmpDir, dont_remove_tmp_dir_default]
  · intro td ex d h
    cases d
    · rfl
    · simp [removesTmpDir] at h

theorem tmp_dir_kept_by_default_witness :
    removesTmpDir "/tmp/pmx" true dont_remove_tmp_dir_default = false
    ∧ (false : Bool) = false :=
  ⟨tmp_dir_kept_by_default.2.1 "/tmp/pmx" true,
    tmp_dir_kept_by_default.2.2 "/tmp/pmx" true false (by decide)⟩

/-- C8: task identity is a function of the significant parameters only:
replacing the resource-request parameters (`n_cpu`, `parallel_env`,
`runtime`, `poll_time`) of any descriptor leaves its identity
unchanged, and any two descriptors with equal significant parameters
have equal identity. -/
theorem task_identity_ignores_resources :
    (∀ (d : Task_PL_align_Params) (n : Int) (pe rt : String) (pt : Int),
      taskIdentity
        { d with n_cpu := n, parallel_env := pe, runtime := rt,
                 poll_time := pt } = taskIdentity d)
    ∧ ∀ (d₁ d₂ : Task_PL_align_Params),
        significantParams d₁ = significantParams d₂ →
        taskIdentity d₁ = taskIdentity d₂ := by
  constructor
  · intro d n pe rt pt
    rfl
  · intro d₁ d₂ h
    simp [taskIdentity, h]

/-- A concrete `Task_PL_align` parameterisation used as witness input. -/
def sampleAlignTask : Task_PL_align_Params :=
  { p := "protein", l := "lig", i := 1, m := 0, sTI := "A",
    restr_scheme := "Aligned", folder_path := "/data/prot",
    study_settings := [("base_path", "/data")],
    reuse_existing_pbc_fixes := false, n_cpu := 1,
    job_name_format := "pmx_Task_PL_align", debug := false,
    run_locally := false, no_tarball := true, shared_tmp_dir := "/tmp",
    dont_remove_tmp_dir := true, parallel_env := "openmp_fast",
    poll_time := 300, source_conda := "profile", job_name := "",
    runtime := "24:00:00", end_wait_buffer := 60, retry_policy := {} }

theorem task_identity_ignores_resources_witness :
    taskIdentity
      { sampleAlignTask with n_cpu := 16, parallel_env := "mpi",
                             runtime := "01:00:00", poll_time := 30 } =
      taskIdentity sampleAlignTask
    ∧ taskIdentity { sampleAlignTask with debug := true } =
        taskIdentity sampleAlignTask :=
  ⟨task_identity_ignores_resources.1 sampleAlignTask 16 "mpi" "01:00:00" 30,
    task_identity_ignores_resources.2
      { sampleAlignTask with debug := true } sampleAlignTask rfl⟩

theorem digitChar_lt10_ne_eq_char (k : Nat) (h : k < 10) :
    Nat.digitChar k ≠ '=' := by
  interval_cases k <;> decide

theorem toDigitsCore_ten_no_eq_char (fuel n : Nat) (ds : List Char)
    (h : '=' ∉ ds) : '=' ∉ Nat.toDigitsCore 10 fuel n ds := by
  induction fuel generalizing n ds with
  | zero => exact h
  | succ fuel ih =>
    simp only [Nat.toDigitsCore]
    split
    · intro hmem
      rcases List.mem_cons.mp hmem with h1 | h1
      · exact digitChar_lt10_ne_eq_char _ (Nat.mod_lt _ (by omega)) h1.symm
      · exact h h1
    · refine ih _ _ ?_
      intro hmem
      rcases List.mem_cons.mp hmem with h1 | h1
      · exact digitChar_lt10_ne_eq_char _ (Nat.mod_lt _ (by omega)) h1.symm
      · exact h h1

theorem eq_char_not_in_nat_repr (n : Nat) : '=' ∉ (Nat.repr n).data := by
  show '=' ∉ (Nat.toDigits 10 n).asString.data
  show '=' ∉ Nat.toDigitsCore 10 (n + 1) n []
  exact toDigitsCore_ten_no_eq_char (n + 1) n [] (by simp)

/-- C7: the rendered qsub submit command embeds the output-capture
path, error-capture path, parallel-environment name, cpu-slot count
and job display name; when a runtime is configured (a non-empty
string) the command contains `-l h_rt=<runtime>`; when the runtime is
unset (None or empty, i.e. Python-falsy) the command is identical to
the one rendered with no runtime at all, and — as long as no other
argument carries an `=` character, which the fixed template never
produces — the time-limit flag text does not occur anywhere in it. -/
theorem qsub_command_contents (cmd job_name outfile errfile pe : List Char)
    (n_cpu : Nat) (runtime : Option (List Char)) :
    (outfile <:+:
        extended_build_qsub_command cmd job_name outfile errfile pe n_cpu
          runtime
      ∧ errfile <:+:
        extended_build_qsub_command cmd job_name outfile errfile pe n_cpu
          runtime
      ∧ pe <:+:
        extended_build_qsub_command cmd job_name outfile errfile pe n_cpu
          runtime
      ∧ (Nat.repr n_cpu).data <:+:
        extended_build_qsub_command cmd job_name outfile errfile pe n_cpu
          runtime
      ∧ job_name <:+:
        extended_build_qsub_command cmd job_name outfile errfile pe n_cpu
          runtime)
    ∧ (∀ r, runtime = some r → r ≠ [] →
        "-l h_rt=".data ++ r <:+:
          extended_build_qsub_command cmd job_name outfile errfile pe n_cpu
            runtime)
    ∧ ((runtime = none ∨ runtime = some []) →
        extended_build_qsub_command cmd job_name outfile errfile pe n_cpu
            runtime =
          extended_build_qsub_command cmd job_name outfile errfile pe n_cpu
            none
        ∧ ('=' ∉ cmd → '=' ∉ job_name → '=' ∉ outfile → '=' ∉ errfile →
            '=' ∉ pe →
            ¬ ("-l h_rt=".data <:+:
              extended_build_qsub_command cmd job_name outfile errfile pe
                n_cpu runtime))) := by
  refine ⟨⟨?_, ?_, ?_, ?_, ?_⟩, ?_, ?_⟩
  · exact ⟨"echo ".data ++ cmd ++ " | qsub -o \":".data,
      "\" -e \":".data ++ errfile ++ "\" -V -r y ".data ++
        h_rt_fragment runtime ++ " -pe ".data ++ pe ++ " ".data ++
        (Nat.repr n_cpu).data ++ " -N ".data ++ job_name,
      by simp [extended_build_qsub_command]⟩
  · exact ⟨"echo ".data ++ cmd ++ " | qsub -o \":".data ++ outfile ++
        "\" -e \":".data,
      "\" -V -r y ".data ++ h_rt_fragment runtime ++ " -pe ".data ++ pe ++
        " ".data ++ (Nat.repr n_cpu).data ++ " -N ".data ++ job_name,
      by simp [extended_build_qsub_command]⟩
  · exact ⟨"echo ".data ++ cmd ++ " | qsub -o \":".data ++ outfile ++
        "\" -e \":".data ++ errfile ++ "\" -V -r y ".data ++
        h_rt_fragment runtime ++ " -pe ".data,
      " ".data ++ (Nat.repr n_cpu).data ++ " -N ".data ++ job_name,
      by simp [extended_build_qsub_command]⟩
  · exact ⟨"echo ".data ++ cmd ++ " | qsub -o \":".data ++ outfile ++
        "\" -e \":".data ++ errfile ++ "\" -V -r y ".data ++
        h_rt_fragment runtime ++ " -pe ".data ++ pe ++ " ".data,
      " -N ".data ++ job_name,
      by simp [extended_build_qsub_command]⟩
  · exact ⟨"echo ".data ++ cmd ++ " | qsub -o \":".data ++ outfile ++
        "\" -e \":".data ++ errfile ++ "\" -V -r y ".data ++
        h_rt_fragment runtime ++ " -pe ".data ++ pe ++ " ".data ++
        (Nat.repr n_cpu).data ++ " -N ".data,
      [],
      by simp [extended_build_qsub_command]⟩
  · rintro r rfl hr
    refine ⟨"echo ".data ++ cmd ++ " | qsub -o \":".data ++ outfile ++
        "\" -e \":".data ++ errfile ++ "\" -V -r y ".data,
      " -pe ".data ++ pe ++ " ".data ++ (Nat.repr n_cpu).data ++
        " -N ".data ++ job_name,
      by simp [extended_build_qsub_command, h_rt_fragment, hr]⟩
  · intro hfalsy
    have hfrag : h_rt_fragment runtime = [] := by
      rcases hfalsy with rfl | rfl <;> simp [h_rt_fragment]
    constructor
    · simp [extended_build_qsub_command, hfrag,
        show h_rt_fragment none = [] from rfl]
    · intro hc hj ho he hp habs
      have hm : '=' ∈ extended_build_qsub_command cmd job_name outfile
          errfile pe n_cpu runtime := habs.mem (by decide)
      have hn : '=' ∉ (Nat.repr n_cpu).data := eq_char_not_in_nat_repr n_cpu
      simp only [extended_build_qsub_command, hfrag, List.append_nil,
        List.nil_append, List.append_assoc, List.mem_append] at hm
      rcases hm with h | h | h | h | h | h | h | h | h | h | h | h | h
      all_goals first
        | exact hc h
        | exact hj h
        | exact ho h
        | exact he h
        | exact hp h
        | exact hn h
        | exact absurd h (by decide)

theorem qsub_command_contents_witness :
    ("-l h_rt=".data ++ "24:00:00".data <:+:
      extended_build_qsub_command "python x".data "pmx".data "o.txt".data
        "e.txt".data "smp".data 8 (some "24:00:00".data))
    ∧ ¬ ("-l h_rt=".data <:+:
      extended_build_qsub_command "python x".data "pmx".data "o.txt".data
        "e.txt".data "smp".data 8 none) := by
  constructor
  · exact (qsub_command_contents "python x".data "pmx".data "o.txt".data
      "e.txt".data "smp".data 8 (some "24:00:00".data)).2.1 "24:00:00".data
      rfl (by decide)
  · exact ((qsub_command_contents "python x".data "pmx".data "o.txt".data
      "e.txt".data "smp".data 8 none).2.2 (Or.inl rfl)).2
      (by decide) (by decide) (by decide) (by decide) (by decide)

end PmxSGE
